import Mathlib

/-
Verification of the arakawa-bot reservation pipeline: a shallow embedding of
the date/time arithmetic, slot filtering, calendar-conflict engine and booking
flow of `arakawa_calendar.py` and `arakawa_selenium_check.py`, with theorems
settling the specification's claims about them.

Conventions used throughout:
- A Python `datetime.date` is a year/month/day triple (`PyDate`); Python's
  `date.toordinal` is `dateOrd`, and comparison / `timedelta` arithmetic on
  dates is modeled on ordinals (for valid dates Python's lexicographic date
  order coincides with ordinal order, and `d + timedelta(days = n)` has
  ordinal `toordinal d + n`).
- An absolute instant is its second count on the proleptic Gregorian scale:
  `ordinal * 86400 + second_of_day` for the UTC wall clock.  A timezone-aware
  Python datetime compares by its absolute instant, so a local wall clock at a
  fixed UTC offset of `tz` hours maps to `local_seconds - tz * 3600`.
- Fallible Python code (a raised `ValueError`) is modeled with `Option`.
-/

namespace Arakawa

/-- A Python `datetime.date`: a year-month-day triple.  Python's constructor
guarantees such objects denote valid calendar dates; the concrete instances
used below are all valid. -/
structure PyDate where
  year : Int
  month : Int
  day : Int
deriving DecidableEq, Repr

/-- Gregorian leap-year test (Python `calendar.isleap`). -/
def isLeapYear (y : Int) : Bool :=
  y % 4 = 0 && (y % 100 ≠ 0 || y % 400 = 0)

/-- Number of days in year `y` strictly before month `m`
(Python `datetime._days_before_month`). -/
def daysBeforeMonth (y m : Int) : Int :=
  (if m ≤ 1 then 0
   else if m = 2 then 31
   else if m = 3 then 59
   else if m = 4 then 90
   else if m = 5 then 120
   else if m = 6 then 151
   else if m = 7 then 181
   else if m = 8 then 212
   else if m = 9 then 243
   else if m = 10 then 273
   else if m = 11 then 304
   else 334)
  + (if 2 < m then (if isLeapYear y then 1 else 0) else 0)

/-- Python `date.toordinal`: day count with 0001-01-01 as day 1. -/
def dateOrd (d : PyDate) : Int :=
  365 * (d.year - 1) + (d.year - 1) / 4 - (d.year - 1) / 100 + (d.year - 1) / 400
    + daysBeforeMonth d.year d.month + d.day

/-- Python `date.weekday`: Monday = 0; day 1 (0001-01-01) is a Monday. -/
def weekday (d : PyDate) : Int := (dateOrd d - 1) % 7

/-- Absolute instant (seconds, UTC scale) of local wall-clock `h:m:s` on day
`d` interpreted at a fixed UTC offset of `tz` hours. -/
def localAbs (tz : Int) (d : PyDate) (h m s : Int) : Int :=
  dateOrd d * 86400 + h * 3600 + m * 60 + s - tz * 3600

/-- Absolute instant of local wall-clock `h:m:s` on the day with ordinal
`dayOrd`, at a fixed UTC offset of `tz` hours. -/
def ordLocalAbs (tz : Int) (dayOrd : Int) (h m s : Int) : Int :=
  dayOrd * 86400 + h * 3600 + m * 60 + s - tz * 3600

/-- The ASCII whitespace characters Python's `str.strip` (and `int`) remove
from both ends: space, tab, newline, carriage return, vertical tab, form
feed.  (Python also strips a few Unicode space characters; those are outside
the modeled inputs.) -/
def isPyWhitespace (c : Char) : Bool :=
  c = ' ' || c = '\t' || c = '\n' || c = '\r' || c = '\x0b' || c = '\x0c'

/-- Python `str.strip()` on a character list. -/
def stripChars (cs : List Char) : List Char :=
  ((cs.dropWhile isPyWhitespace).reverse.dropWhile isPyWhitespace).reverse

/-- Python `str.split(":")` on a character list: splits at every colon and
keeps empty fields, so the result always has one more field than there are
colons. -/
def splitOnColon : List Char → List (List Char)
  | [] => [[]]
  | ':' :: rest => [] :: splitOnColon rest
  | c :: rest =>
    match splitOnColon rest with
    | [] => [[c]]
    | g :: gs => (c :: g) :: gs

/-- One run of ASCII digits in which single underscores may stand between two
digits, as Python's `int` accepts ("1_0" parses to 10); the caller has already
checked that the run's first character is a digit. -/
def digitRunOk : List Char → Bool
  | [] => true
  | '_' :: c :: rest => c.isDigit && digitRunOk (c :: rest)
  | c :: rest => c.isDigit && digitRunOk rest

/-- Decimal value of a digit run, underscores skipped. -/
def digitsVal (cs : List Char) : Nat :=
  cs.foldl (fun acc c => if c = '_' then acc else acc * 10 + (c.toNat - 48)) 0

/-- Model of Python `int` on an ASCII character list: optional surrounding
whitespace, an optional sign, then a nonempty digit run (single underscores
allowed between digits).  `none` where Python raises `ValueError`.  (Python
also accepts non-ASCII digit characters; those are outside the modeled
inputs.) -/
def pyIntChars (s : List Char) : Option Int :=
  match stripChars s with
  | [] => none
  | c :: rest =>
    if c = '-' then
      match rest with
      | [] => none
      | d :: ds =>
        if d.isDigit && digitRunOk ds then some (-(digitsVal rest : Int)) else none
    else if c = '+' then
      match rest with
      | [] => none
      | d :: ds =>
        if d.isDigit && digitRunOk ds then some (digitsVal rest : Int) else none
    else
      if c.isDigit && digitRunOk rest then some (digitsVal (c :: rest) : Int) else none

/-- Python `int(s)` on a string. -/
def pyIntOpt (s : String) : Option Int := pyIntChars s.data

/-- From `arakawa_calendar._parse_time_to_minutes`: strip, split on ":",
require exactly two fields, value = hours * 60 + minutes; any failure
(wrong field count or `int` raising `ValueError`) yields 0. -/
def _parse_time_to_minutes (t : String) : Int :=
  match splitOnColon (stripChars t.data) with
  | [a, b] =>
    match pyIntChars a, pyIntChars b with
    | some x, some y => x * 60 + y
    | _, _ => 0
  | _ => 0

/-- From `arakawa_selenium_check.SlotInfo` (a NamedTuple). -/
structure SlotInfo where
  date_obj : PyDate
  date_text : String
  start_time : String
  end_time : String
  time_text : String
  court : String
  display_line : String
  button_id : String := ""
deriving DecidableEq, Repr

/-- `arakawa_calendar.HOURS_BUFFER`. -/
def HOURS_BUFFER : Int := 2

/-- From `arakawa_calendar.has_calendar_conflict`.  Busy events are pairs of
absolute UTC instants (the Python code converts each event end-point to UTC
before comparing, which on the absolute-second scale is the identity).
The check window is built from the slot's day at `check_start_mins` with
second 0 and at `check_end_mins` with second 59, interpreted at the fixed
offset `tz_offset_hours`.  `none` models the `ValueError` that `datetime(...)`
raises when a computed check minute falls outside a valid time of day, which
is possible only for abnormal parsed times (e.g. an hour above 25 or a
negative component); every claim below stays inside the `some` region. -/
def has_calendar_conflict (slot : SlotInfo) (events : List (Int × Int))
    (tz_offset_hours : Int := 9) : Option Bool :=
  if slot.start_time = "" ∨ slot.end_time = "" then some false
  else
    let start_mins := _parse_time_to_minutes slot.start_time
    let end_mins := _parse_time_to_minutes slot.end_time
    if start_mins = 0 ∧ end_mins = 0 then some false
    else
      let check_start_mins := max 0 (start_mins - HOURS_BUFFER * 60)
      let check_end_mins := min (24 * 60 - 1) (end_mins + HOURS_BUFFER * 60)
      if 1440 ≤ check_start_mins ∨ check_end_mins < 0 then none
      else
        let check_start_utc :=
          dateOrd slot.date_obj * 86400 + check_start_mins * 60 - tz_offset_hours * 3600
        let check_end_utc :=
          dateOrd slot.date_obj * 86400 + check_end_mins * 60 + 59 - tz_offset_hours * 3600
        some (events.any fun ev =>
          decide (ev.1 < check_end_utc) && decide (ev.2 > check_start_utc))

/-- Absolute instant of the check-window start that `has_calendar_conflict`
compares busy intervals against, for a slot on day `d` whose start time
parsed to `startMins` minutes. -/
def windowStartUTC (tz : Int) (d : PyDate) (startMins : Int) : Int :=
  dateOrd d * 86400 + (max 0 (startMins - 120)) * 60 - tz * 3600

/-- Absolute instant of the check-window end that `has_calendar_conflict`
compares busy intervals against: note the extra 59 seconds the code appends
to the clamped end minute. -/
def windowEndUTC (tz : Int) (d : PyDate) (endMins : Int) : Int :=
  dateOrd d * 86400 + (min 1439 (endMins + 120)) * 60 + 59 - tz * 3600

/-- Whether a string has the shape hour-colon-minute with both fields
`int`-parseable after stripping, i.e. the inputs on which
`_parse_time_to_minutes` computes a value instead of falling back to 0. -/
def parsesAsHMM (s : String) : Bool :=
  match splitOnColon (stripChars s.data) with
  | [a, b] => (pyIntChars a).isSome && (pyIntChars b).isSome
  | _ => false

/-- Result of reading a Google Calendar all-day "date" field: the key was
absent (or the string empty), the string was present but `date.fromisoformat`
raised `ValueError`, or it parsed to the date with the given ordinal. -/
inductive IsoDateField where
  | missing
  | invalid
  | valid (dayOrd : Int)
deriving DecidableEq, Repr

/-- One upstream calendar event as the normalization loops in
`arakawa_calendar.fetch_calendar_busy_ranges` and `fetch_events_in_range` see
it: either the start carries a "dateTime" (and then the code reads the end's
"dateTime" as well; both are modeled by their parsed absolute UTC instants),
or it is an all-day entry carrying "date" fields. -/
inductive GCalEvent where
  | timed (startAbs endAbs : Int)
  | allDay (startDate endDate : IsoDateField)
deriving DecidableEq, Repr

/-- Loop body shared by `fetch_calendar_busy_ranges` and
`fetch_events_in_range`: normalize one event to a busy interval, `none` when
the event is skipped (`continue`).  All-day entries start at local (JST)
midnight of the start day; the upstream exclusive end day is decremented by
one and mapped to local 23:59:59.  A missing end "date" falls back to the
start's date string (so it re-parses to the start day); an unparseable date
on either side skips the event. -/
def normalizeEvent : GCalEvent → Option (Int × Int)
  | .timed s e => some (s, e)
  | .allDay .missing _ => none
  | .allDay .invalid _ => none
  | .allDay (.valid d) ed =>
    match ed with
    | .invalid => none
    | .missing => some (ordLocalAbs 9 d 0 0 0, ordLocalAbs 9 (d - 1) 23 59 59)
    | .valid e2 => some (ordLocalAbs 9 d 0 0 0, ordLocalAbs 9 (e2 - 1) 23 59 59)

/-- The busy-interval normalization of `fetch_calendar_busy_ranges`, applied
to the fetched event list (the network fetch itself is the external
collaborator and supplies `events`). -/
def fetch_calendar_busy_ranges (events : List GCalEvent) : List (Int × Int) :=
  events.filterMap normalizeEvent

/-- `arakawa_selenium_check.VALID_START_TIMES`. -/
def VALID_START_TIMES : List String :=
  ["09:00", "10:00", "11:00", "13:00", "15:00", "17:00", "19:00"]

/-- `arakawa_selenium_check.PARK_KEYWORDS`. -/
def PARK_KEYWORDS : List String :=
  ["東尾久運動場", "区民運動場", "自然公園庭球場", "宮前公園庭球場"]

/-- `arakawa_selenium_check.MIN_DAYS_AHEAD`. -/
def MIN_DAYS_AHEAD : Int := 3

/-- `arakawa_selenium_check.INCLUDE_WEEKDAYS_FOR_DEBUG` (module constant). -/
def INCLUDE_WEEKDAYS_FOR_DEBUG : Bool := true

/-- `arakawa_selenium_check.INCLUDE_ALL_TIME_SLOTS_FOR_DEBUG` (module
constant). -/
def INCLUDE_ALL_TIME_SLOTS_FOR_DEBUG : Bool := true

/-- The `expected_ends` dict literal inside `_is_valid_slot`; `.get` is the
lookup.  Note the source table has no entry for "10:00" although "10:00" is
in `VALID_START_TIMES`. -/
def expected_ends (s : String) : Option String :=
  if s = "09:00" then some "11:00"
  else if s = "11:00" then some "13:00"
  else if s = "13:00" then some "15:00"
  else if s = "15:00" then some "17:00"
  else if s = "17:00" then some "19:00"
  else if s = "19:00" then some "21:00"
  else none

/-- Python `re.match(r"\d{1,2}:\d{2}", s)` on a character list: one or two
ASCII digits, a colon, then two digits, anchored at the start only (trailing
characters are ignored). -/
def hmmStartMatch : List Char → Bool
  | c1 :: c2 :: c3 :: c4 :: c5 :: _ =>
    (c1.isDigit && c2.isDigit && c3 = ':' && c4.isDigit && c5.isDigit)
    || (c1.isDigit && c2 = ':' && c3.isDigit && c4.isDigit)
  | [c1, c2, c3, c4] => c1.isDigit && c2 = ':' && c3.isDigit && c4.isDigit
  | _ => false

/-- `re.match(r"\d{1,2}:\d{2}", s)` on a string. -/
def matchesHMMStart (s : String) : Bool := hmmStartMatch s.data

/-- `arakawa_selenium_check._is_valid_slot` with the module-level debug flag
`INCLUDE_ALL_TIME_SLOTS_FOR_DEBUG` made an explicit argument (the source
reads it as a global; `_is_valid_slot` below fixes it to the repository's
value). -/
def _is_valid_slot_mode (include_all_time_slots : Bool)
    (start_time end_time : String) : Bool :=
  if start_time = "" ∨ end_time = "" then false
  else if include_all_time_slots then
    matchesHMMStart start_time && matchesHMMStart end_time
  else if start_time ∉ VALID_START_TIMES then false
  else decide (expected_ends start_time = some end_time)

/-- `_is_valid_slot` as the repository runs it (debug flag = `true`). -/
def _is_valid_slot (start_time end_time : String) : Bool :=
  _is_valid_slot_mode INCLUDE_ALL_TIME_SLOTS_FOR_DEBUG start_time end_time

/-- Python substring test `nee in hay` (character-list infix check). -/
def infixCheck (n : List Char) : List Char → Bool
  | [] => n.isEmpty
  | c :: t => n.isPrefixOf (c :: t) || infixCheck n t

/-- Python `kw in court_text` on strings. -/
def strContainsSub (hay nee : String) : Bool := infixCheck nee.data hay.data

/-- `arakawa_selenium_check._is_court_in_scope`. -/
def _is_court_in_scope (court_text : String) : Bool :=
  PARK_KEYWORDS.any fun kw => strContainsSub court_text kw

/-- `arakawa_selenium_check._is_weekend_or_holiday`; the external `jpholiday`
lookup is the parameter `isHoliday`. -/
def _is_weekend_or_holiday (isHoliday : PyDate → Bool) (d : PyDate) : Bool :=
  if 5 ≤ weekday d then true else isHoliday d

/-- `arakawa_selenium_check._is_within_min_days`; `today` (Python
`date.today()`) is an explicit parameter.  Python's `slot_date <= today +
timedelta(days = min_days)` is ordinal comparison for valid dates. -/
def _is_within_min_days (today : PyDate) (slot_date : PyDate)
    (min_days : Int) : Bool :=
  decide (dateOrd slot_date ≤ dateOrd today + min_days)

/-- `arakawa_selenium_check._filter_slots_by_requirements`: the source's
append loop with `continue` guards, as a recursion.  `today` and the holiday
table are the ambient environment made explicit. -/
def _filter_slots_by_requirements (today : PyDate) (isHoliday : PyDate → Bool) :
    List SlotInfo → List SlotInfo
  | [] => []
  | s :: rest =>
    if !INCLUDE_WEEKDAYS_FOR_DEBUG && !_is_weekend_or_holiday isHoliday s.date_obj then
      _filter_slots_by_requirements today isHoliday rest
    else if _is_within_min_days today s.date_obj MIN_DAYS_AHEAD then
      _filter_slots_by_requirements today isHoliday rest
    else if !_is_valid_slot s.start_time s.end_time then
      _filter_slots_by_requirements today isHoliday rest
    else if !_is_court_in_scope s.court then
      _filter_slots_by_requirements today isHoliday rest
    else s :: _filter_slots_by_requirements today isHoliday rest

/-- The separator class `[～\-〜−-]` of `_parse_time_range`: fullwidth wave,
hyphen-minus, wave dash, and minus sign. -/
def isSepChar (c : Char) : Bool := c = '～' || c = '-' || c = '〜' || c = '−'

/-- Greedy match of `\d{1,2}:\d{2}` at the head of a character list, returning
the matched token and the remaining characters.  The two-digit-hour reading is
preferred; a one-digit-hour reading needs the second character to be the
colon, so the two cannot both apply (the regex engine's backtracking collapses
to this two-branch test). -/
def matchHMM : List Char → Option (String × List Char)
  | c1 :: c2 :: c3 :: c4 :: c5 :: rest =>
    if c1.isDigit && c2.isDigit && c3 = ':' && c4.isDigit && c5.isDigit then
      some (String.mk [c1, c2, c3, c4, c5], rest)
    else if c1.isDigit && c2 = ':' && c3.isDigit && c4.isDigit then
      some (String.mk [c1, c2, c3, c4], c5 :: rest)
    else none
  | [c1, c2, c3, c4] =>
    if c1.isDigit && c2 = ':' && c3.isDigit && c4.isDigit then
      some (String.mk [c1, c2, c3, c4], [])
    else none
  | _ => none

/-- Attempt the whole pattern `(\d{1,2}:\d{2})[～\-〜−-]+(\d{1,2}:\d{2})` at
the head of a character list.  At least one separator is required; separators
and digits are disjoint, so consuming the maximal separator run is faithful to
the regex's backtracking. -/
def tryPatternAt (cs : List Char) : Option (String × String) :=
  match matchHMM cs with
  | none => none
  | some (t1, rest) =>
    match rest with
    | [] => none
    | c :: _ =>
      if isSepChar c then
        match matchHMM (rest.dropWhile isSepChar) with
        | some (t2, _) => some (t1, t2)
        | none => none
      else none

/-- Python `re.search`: try the pattern at each successive start position. -/
def searchPattern : List Char → Option (String × String)
  | [] => none
  | c :: rest =>
    match tryPatternAt (c :: rest) with
    | some r => some r
    | none => searchPattern rest

/-- `arakawa_selenium_check._parse_time_range`: drop spaces and newlines, then
search for `(\d{1,2}:\d{2})[～\-〜−-]+(\d{1,2}:\d{2})` and return the two
captured tokens, `none` when the pattern matches nowhere. -/
def _parse_time_range (time_text : String) : Option (String × String) :=
  searchPattern (time_text.data.filter fun c => !(c = ' ' || c = '\n'))

/-- A full (anchored both ends) `\d{1,2}:\d{2}` token, the shape of each time
string a successful `_parse_time_range` returns. -/
def isHMMToken (s : String) : Bool :=
  match s.data with
  | [c1, c2, c3, c4, c5] => c1.isDigit && c2.isDigit && c3 = ':' && c4.isDigit && c5.isDigit
  | [c1, c2, c3, c4] => c1.isDigit && c2 = ':' && c3.isDigit && c4.isDigit
  | _ => false

/-- The UI steps `try_book_first_candidate` can perform, in source order. -/
inductive BookStep where
  | clickSlot
  | clickYyList
  | selectPayment
  | clickOK
  | clickBack
  | navigateSearch
  | clickConfirmLink
  | acceptAlert
  | clickFinalLink
deriving DecidableEq, Repr

/-- Abstract page-driver environment for one booking attempt: each flag says
whether the corresponding wait/click of `try_book_first_candidate` succeeds
(`false` models the `selenium` call raising, e.g. a timeout); `bodyText` is
the text of the post-submit page body, `none` when even the body lookup
raises.  `navigateOk` stands for the whole `navigate_from_menu_to_search`
call succeeding. -/
structure PageEnv where
  clickSlotOk : Bool
  yyListOk : Bool
  selectPaymentOk : Bool
  okButtonOk : Bool
  bodyText : Option String
  backOk : Bool
  navigateOk : Bool
  confirmLinkOk : Bool
  alertAppears : Bool
  finalLinkOk : Bool
deriving Repr

/-- The "already reserved by another user" marker searched for in the
post-submit view. -/
def ALREADY_RESERVED_MARKER : String := "他の利用者が既に予約済です"

/-- Confirmation tail of `try_book_first_candidate` (steps ⑤–⑦): click the
contents link (a failure here is caught by the outer `except` and yields
`False`), accept the native alert when one appears (its absence is swallowed),
click the final link when clickable (a failure is swallowed), return `True`. -/
def confirmFlow (env : PageEnv) (t : List BookStep) : Bool × List BookStep :=
  if !env.confirmLinkOk then (false, t)
  else
    let t1 := t ++ [BookStep.clickConfirmLink]
    let t2 := if env.alertAppears then t1 ++ [BookStep.acceptAlert] else t1
    let t3 := if env.finalLinkOk then t2 ++ [BookStep.clickFinalLink] else t2
    (true, t3)

/-- `arakawa_selenium_check.try_book_first_candidate`: returns the Python
boolean result together with the trace of UI steps performed.  A raising step
inside the outer `try` aborts with `False`; the marker check sits in an inner
`try` whose `except` falls through to the confirmation flow, so a failure of
the back button or of the re-navigation continues to the confirmation steps. -/
def try_book_first_candidate (env : PageEnv) (first_slot : SlotInfo) :
    Bool × List BookStep :=
  if first_slot.button_id = "" then (false, [])
  else if !env.clickSlotOk then (false, [])
  else if !env.yyListOk then (false, [BookStep.clickSlot])
  else if !env.selectPaymentOk then (false, [BookStep.clickSlot, BookStep.clickYyList])
  else if !env.okButtonOk then
    (false, [BookStep.clickSlot, BookStep.clickYyList, BookStep.selectPayment])
  else
    let t0 : List BookStep :=
      [BookStep.clickSlot, BookStep.clickYyList, BookStep.selectPayment, BookStep.clickOK]
    match env.bodyText with
    | some bodyT =>
      if strContainsSub bodyT ALREADY_RESERVED_MARKER then
        if env.backOk then
          if env.navigateOk then (false, t0 ++ [BookStep.clickBack, BookStep.navigateSearch])
          else confirmFlow env (t0 ++ [BookStep.clickBack])
        else confirmFlow env t0
      else confirmFlow env t0
    | none => confirmFlow env t0

/-- Zero-padding to two digits (Python `%02d`). -/
def pad2 (n : Nat) : String := if n < 10 then "0" ++ toString n else toString n

/-- Zero-padding to four digits (Python `%04d`, years 1–9999). -/
def pad4 (n : Nat) : String :=
  if n < 10 then "000" ++ toString n
  else if n < 100 then "00" ++ toString n
  else if n < 1000 then "0" ++ toString n
  else toString n

/-- Python `date.isoformat`: `YYYY-MM-DD`, zero padded. -/
def isoformat (d : PyDate) : String :=
  pad4 d.year.toNat ++ "-" ++ pad2 d.month.toNat ++ "-" ++ pad2 d.day.toNat

/-- `SlotInfo.to_calendar_format`. -/
def to_calendar_format (s : SlotInfo) : String :=
  if s.start_time = "" ∨ s.end_time = "" then
    isoformat s.date_obj ++ " " ++ s.time_text
  else
    isoformat s.date_obj ++ " " ++ s.start_time ++ "-" ++ s.end_time

/-- The booked-slot output line of the `__main__` block: the f-string
`BOOKED: ...` puts TWO spaces between the time range and the court label. -/
def booked_line (s : SlotInfo) : String :=
  "BOOKED: " ++ to_calendar_format s ++ "  " ++ s.court

/-- Modelled from the spec: the output-line format the spec claims, with the
four fields separated by single spaces — written from the spec's words for
comparison with `booked_line`. -/
def claimed_booked_line (s : SlotInfo) : String :=
  "BOOKED: " ++ isoformat s.date_obj ++ " " ++ s.start_time ++ "-" ++ s.end_time
    ++ " " ++ s.court

/-- A 13:00–15:00 slot on Saturday 2026-03-07, used as concrete input for the
conflict-engine claims. -/
def slotC1 : SlotInfo :=
  ⟨⟨2026, 3, 7⟩, "令和08年03月07日(土)", "13:00", "15:00", "13:00～15:00",
    "東尾久運動場テニスコートA", "", "button0_8"⟩

/-- A slot whose start and end times are both the parseable string "00:00". -/
def slotC1zero : SlotInfo :=
  ⟨⟨2026, 3, 7⟩, "令和08年03月07日(土)", "00:00", "00:00", "00:00～00:00",
    "東尾久運動場テニスコートA", "", "button0_8"⟩

/-- C6: a slot whose start or end time is unset (the empty string) never
conflicts — `has_calendar_conflict` returns `False` for every busy-interval
list and every timezone offset. -/
theorem C6_unset_time_never_conflicts (slot : SlotInfo)
    (events : List (Int × Int)) (tz : Int)
    (h : slot.start_time = "" ∨ slot.end_time = "") :
    has_calendar_conflict slot events tz = some false := by
  unfold has_calendar_conflict
  rw [if_pos h]

theorem C6_unset_time_never_conflicts_witness :
    has_calendar_conflict ⟨⟨2026, 3, 7⟩, "", "", "15:00", "", "", "", ""⟩ [] 9
      = some false :=
  C6_unset_time_never_conflicts _ _ _ (Or.inl rfl)

/-- C10: the minute-parsing helper is total and returns 0 on every string not
of the form H:MM with integer components, and whenever both of a slot's times
parse to 0 minutes (both malformed, or literally 00:00–00:00)
`has_calendar_conflict` returns `False` for every busy-interval list. -/
theorem C10_zero_minutes_conflict_free :
    (∀ s : String, parsesAsHMM s = false → _parse_time_to_minutes s = 0)
    ∧ (∀ (slot : SlotInfo) (events : List (Int × Int)) (tz : Int),
        _parse_time_to_minutes slot.start_time = 0 →
        _parse_time_to_minutes slot.end_time = 0 →
        has_calendar_conflict slot events tz = some false) := by
  constructor
  · intro s h
    unfold parsesAsHMM at h
    unfold _parse_time_to_minutes
    rcases hsp : splitOnColon (stripChars s.data) with _ | ⟨a, t⟩
    · rfl
    · rcases t with _ | ⟨b, t2⟩
      · rfl
      · rcases t2 with _ | _
        · rw [hsp] at h
          rcases hpa : pyIntChars a with _ | x
          · simp [hpa]
          · rcases hpb : pyIntChars b with _ | y
            · simp [hpa, hpb]
            · simp [hpa, hpb] at h
        · rfl
  · intro slot events tz h1 h2
    unfold has_calendar_conflict
    by_cases he : slot.start_time = "" ∨ slot.end_time = ""
    · rw [if_pos he]
    · rw [if_neg he]
      simp [h1, h2]

theorem C10_zero_minutes_conflict_free_witness :
    has_calendar_conflict ⟨⟨2026, 3, 7⟩, "", "xx", "yy", "", "", "", ""⟩ [] 9
      = some false :=
  C10_zero_minutes_conflict_free.2 _ [] 9 (by decide) (by decide)

/-- C3: an all-day entry spanning the single nominal day `D` (start date `D`,
exclusive upstream end `D + 1`) normalizes to the busy interval
from local (JST) `D 00:00:00` to local `D 23:59:59`; in general the end day is
decremented by one before being mapped to 23:59:59 of that last inclusive
day. -/
theorem C3_allday_normalization :
    (∀ D : Int, normalizeEvent (.allDay (.valid D) (.valid (D + 1)))
        = some (ordLocalAbs 9 D 0 0 0, ordLocalAbs 9 D 23 59 59))
    ∧ (∀ D E : Int, normalizeEvent (.allDay (.valid D) (.valid E))
        = some (ordLocalAbs 9 D 0 0 0, ordLocalAbs 9 (E - 1) 23 59 59))
    ∧ (∀ D : Int, fetch_calendar_busy_ranges [.allDay (.valid D) (.valid (D + 1))]
        = [(ordLocalAbs 9 D 0 0 0, ordLocalAbs 9 D 23 59 59)]) := by
  refine ⟨fun D => ?_, fun D E => ?_, fun D => ?_⟩ <;>
    simp [normalizeEvent, fetch_calendar_busy_ranges, ordLocalAbs]

lemma expected_ends_ne_some_empty (s : String) : expected_ends s ≠ some "" := by
  unfold expected_ends
  split_ifs <;> simp

/-- C2: with the relaxed/debug mode inactive, `_is_valid_slot` accepts a slot
exactly when its start time is in the allow-list and its end time is the end
the lookup table assigns to that start; start 09:00 / end 11:00 passes, start
09:00 / end 10:30 fails, start 08:00 fails for every end. -/
theorem C2_restricted_mode_rule :
    (∀ s e : String, _is_valid_slot_mode false s e = true ↔
        s ∈ VALID_START_TIMES ∧ expected_ends s = some e)
    ∧ _is_valid_slot_mode false "09:00" "11:00" = true
    ∧ _is_valid_slot_mode false "09:00" "10:30" = false
    ∧ (∀ e : String, _is_valid_slot_mode false "08:00" e = false) := by
  refine ⟨fun s e => ⟨fun h => ?_, fun h => ?_⟩, by decide, by decide, fun e => ?_⟩
  · unfold _is_valid_slot_mode at h
    by_cases h0 : s = "" ∨ e = ""
    · rw [if_pos h0] at h
      cases h
    · rw [if_neg h0, if_neg (by decide)] at h
      by_cases hm : s ∉ VALID_START_TIMES
      · rw [if_pos hm] at h
        cases h
      · rw [if_neg hm] at h
        exact ⟨not_not.mp hm, of_decide_eq_true h⟩
  · obtain ⟨hmem, hlook⟩ := h
    have hs : s ≠ "" := fun hcon => absurd (hcon ▸ hmem) (by decide)
    have he : e ≠ "" := fun hcon => expected_ends_ne_some_empty s (hcon ▸ hlook)
    unfold _is_valid_slot_mode
    rw [if_neg (by tauto), if_neg (by decide), if_neg (not_not_intro hmem)]
    exact decide_eq_true hlook
  · by_cases he : e = ""
    · subst he
      decide
    · unfold _is_valid_slot_mode
      rw [if_neg (by simp [he]), if_neg (by decide), if_pos (by decide)]

/-- A booked slot used as concrete input for the output-format claim. -/
def slotBookedEx : SlotInfo :=
  ⟨⟨2026, 3, 5⟩, "令和08年03月05日(木)", "09:00", "11:00", "09:00～11:00",
    "東尾久運動場テニスコートA", "", "button0_8"⟩

/-- C8 counterexample: on a concrete booked slot the produced line differs
from the claim's single-space format (the f-string puts two spaces before the
facility label). -/
theorem C8_counterexample :
    booked_line slotBookedEx ≠ claimed_booked_line slotBookedEx := by decide

/-- C8 (amended): for every slot with both times set, the booked-slot output
line is the prefix, the ISO date, start-hyphen-end, then TWO spaces, then the
facility label. -/
theorem C8_booked_line_layout (s : SlotInfo)
    (h1 : s.start_time ≠ "") (h2 : s.end_time ≠ "") :
    booked_line s
      = "BOOKED: " ++ isoformat s.date_obj ++ " " ++ s.start_time ++ "-"
          ++ s.end_time ++ "  " ++ s.court := by
  unfold booked_line to_calendar_format
  rw [if_neg (by tauto)]
  simp [String.append_assoc]

theorem C8_booked_line_layout_witness :
    booked_line slotBookedEx
      = "BOOKED: " ++ isoformat slotBookedEx.date_obj ++ " "
          ++ slotBookedEx.start_time ++ "-" ++ slotBookedEx.end_time ++ "  "
          ++ slotBookedEx.court :=
  C8_booked_line_layout slotBookedEx (by decide) (by decide)

/-- The keep-condition of `_filter_slots_by_requirements`, as one boolean. -/
def keepSlot (today : PyDate) (isHoliday : PyDate → Bool) (s : SlotInfo) : Bool :=
  !(!INCLUDE_WEEKDAYS_FOR_DEBUG && !_is_weekend_or_holiday isHoliday s.date_obj)
    && !_is_within_min_days today s.date_obj MIN_DAYS_AHEAD
    && _is_valid_slot s.start_time s.end_time
    && _is_court_in_scope s.court

lemma filter_slots_eq_filter (today : PyDate) (isHoliday : PyDate → Bool) :
    ∀ l : List SlotInfo,
      _filter_slots_by_requirements today isHoliday l
        = l.filter (keepSlot today isHoliday) := by
  intro l
  induction l with
  | nil => rfl
  | cons a rest ih =>
    simp only [_filter_slots_by_requirements, List.filter_cons, keepSlot, ih]
    by_cases hb1 : (!INCLUDE_WEEKDAYS_FOR_DEBUG && !_is_weekend_or_holiday isHoliday a.date_obj) = true <;>
      by_cases hb2 : _is_within_min_days today a.date_obj MIN_DAYS_AHEAD = true <;>
        by_cases hb3 : _is_valid_slot a.start_time a.end_time = true <;>
          by_cases hb4 : _is_court_in_scope a.court = true <;>
            simp [hb1, hb2, hb3, hb4]

/-- An otherwise-eligible slot dated 2026-03-04 (the floor day for a run on
2026-03-01 with `MIN_DAYS_AHEAD = 3`). -/
def slotMar4 : SlotInfo :=
  ⟨⟨2026, 3, 4⟩, "令和08年03月04日(水)", "09:00", "11:00", "09:00～11:00",
    "東尾久運動場テニスコートA", "", "button0_8"⟩

/-- The same slot dated 2026-03-05 (one day past the floor). -/
def slotMar5 : SlotInfo :=
  ⟨⟨2026, 3, 5⟩, "令和08年03月05日(木)", "09:00", "11:00", "09:00～11:00",
    "東尾久運動場テニスコートA", "", "button0_8"⟩

/-- C4: the eligibility filter keeps a slot only if its date is strictly
after today + `MIN_DAYS_AHEAD`; the date-floor test excludes exactly the
dates with ordinal at most today's ordinal plus the margin; with run date
2026-03-01 the floor day 2026-03-04 is excluded and 2026-03-05 is kept. -/
theorem C4_date_floor :
    (∀ (today slotd : PyDate) (m : Int),
        _is_within_min_days today slotd m = true ↔
          dateOrd slotd ≤ dateOrd today + m)
    ∧ (∀ (today : PyDate) (hol : PyDate → Bool) (l : List SlotInfo) (s : SlotInfo),
        s ∈ _filter_slots_by_requirements today hol l →
        dateOrd today + MIN_DAYS_AHEAD < dateOrd s.date_obj)
    ∧ _filter_slots_by_requirements ⟨2026, 3, 1⟩ (fun _ => false) [slotMar4] = []
    ∧ _filter_slots_by_requirements ⟨2026, 3, 1⟩ (fun _ => false) [slotMar5]
        = [slotMar5] := by
  refine ⟨fun today slotd m => by unfold _is_within_min_days; simp,
    fun today hol l s h => ?_, by decide, by decide⟩
  rw [filter_slots_eq_filter] at h
  have hk := List.of_mem_filter h
  unfold keepSlot at hk
  simp only [Bool.and_eq_true, Bool.not_eq_true'] at hk
  have h2 := hk.1.1.2
  unfold _is_within_min_days at h2
  simp only [decide_eq_false_iff_not, not_le] at h2
  exact h2

theorem C4_date_floor_witness :
    dateOrd ⟨2026, 3, 1⟩ + MIN_DAYS_AHEAD < dateOrd slotMar5.date_obj :=
  C4_date_floor.2.1 ⟨2026, 3, 1⟩ (fun _ => false) [slotMar5] slotMar5 (by decide)

/-- C9: the eligibility filter is idempotent — filtering its own output
returns it unchanged — and its output is a subsequence of the input in the
input's original order. -/
theorem C9_filter_idempotent_and_order (today : PyDate) (hol : PyDate → Bool)
    (l : List SlotInfo) :
    _filter_slots_by_requirements today hol
        (_filter_slots_by_requirements today hol l)
      = _filter_slots_by_requirements today hol l
    ∧ List.Sublist (_filter_slots_by_requirements today hol l) l := by
  rw [filter_slots_eq_filter, filter_slots_eq_filter]
  constructor
  · rw [List.filter_filter]
    simp
  · exact List.filter_sublist l

lemma matchHMM_token {cs : List Char} {t : String} {r : List Char}
    (h : matchHMM cs = some (t, r)) : isHMMToken t = true := by
  rcases cs with _ | ⟨c1, _ | ⟨c2, _ | ⟨c3, _ | ⟨c4, _ | ⟨c5, rest⟩⟩⟩⟩⟩
  · simp [matchHMM] at h
  · simp [matchHMM] at h
  · simp [matchHMM] at h
  · simp [matchHMM] at h
  · unfold matchHMM at h
    dsimp only at h
    split_ifs at h with h1
    · simp only [Option.some.injEq, Prod.mk.injEq] at h
      obtain ⟨ht, hr⟩ := h
      subst ht
      simpa [isHMMToken] using h1
  · unfold matchHMM at h
    dsimp only at h
    split_ifs at h with h1 h2
    · simp only [Option.some.injEq, Prod.mk.injEq] at h
      obtain ⟨ht, hr⟩ := h
      subst ht
      simpa [isHMMToken] using h1
    · simp only [Option.some.injEq, Prod.mk.injEq] at h
      obtain ⟨ht, hr⟩ := h
      subst ht
      simpa [isHMMToken] using h2

lemma tryPatternAt_shape {cs : List Char} {a b : String}
    (h : tryPatternAt cs = some (a, b)) :
    isHMMToken a = true ∧ isHMMToken b = true := by
  unfold tryPatternAt at h
  rcases hm1 : matchHMM cs with _ | ⟨t1, rest⟩
  · rw [hm1] at h
    cases h
  · rw [hm1] at h
    dsimp only at h
    rcases rest with _ | ⟨c, rest2⟩
    · cases h
    · dsimp only at h
      by_cases hsep : isSepChar c = true
      · rw [if_pos hsep] at h
        rcases hm2 : matchHMM ((c :: rest2).dropWhile isSepChar) with _ | ⟨t2, rest3⟩
        · rw [hm2] at h
          cases h
        · rw [hm2] at h
          simp only [Option.some.injEq, Prod.mk.injEq] at h
          obtain ⟨h1, h2⟩ := h
          subst h1
          subst h2
          exact ⟨matchHMM_token hm1, matchHMM_token hm2⟩
      · rw [if_neg hsep] at h
        cases h

lemma searchPattern_shape :
    ∀ (cs : List Char) (a b : String), searchPattern cs = some (a, b) →
      isHMMToken a = true ∧ isHMMToken b = true := by
  intro cs
  induction cs with
  | nil =>
    intro a b h
    simp [searchPattern] at h
  | cons c rest ih =>
    intro a b h
    unfold searchPattern at h
    rcases ht : tryPatternAt (c :: rest) with _ | r2
    · rw [ht] at h
      exact ih a b h
    · rw [ht] at h
      rcases r2 with ⟨x, y⟩
      simp only [Option.some.injEq, Prod.mk.injEq] at h
      obtain ⟨hx, hy⟩ := h
      subst hx
      subst hy
      exact tryPatternAt_shape ht

lemma isHMMToken_ne_empty {s : String} (h : isHMMToken s = true) : s ≠ "" := by
  intro he
  rw [he] at h
  exact absurd h (by decide)

/-- C5 counterexample: the time-range parser accepts the label
"15:00～09:00" and returns an end time strictly earlier than the start
time, so the claimed end-after-start invariant fails on an accepted label. -/
theorem C5_counterexample :
    _parse_time_range "15:00～09:00" = some ("15:00", "09:00")
    ∧ _parse_time_to_minutes "09:00" < _parse_time_to_minutes "15:00" := by
  exact ⟨by decide, by decide⟩

/-- C5 (amended): every pair a successful `_parse_time_range` returns
consists of two syntactically well-formed (hence non-empty) H:MM tokens taken
from the label in order of appearance; no end-after-start ordering is
enforced. -/
theorem C5_parsed_times_are_tokens (t a b : String)
    (h : _parse_time_range t = some (a, b)) :
    isHMMToken a = true ∧ isHMMToken b = true ∧ a ≠ "" ∧ b ≠ "" := by
  unfold _parse_time_range at h
  obtain ⟨ha, hb⟩ := searchPattern_shape _ a b h
  exact ⟨ha, hb, isHMMToken_ne_empty ha, isHMMToken_ne_empty hb⟩

theorem C5_parsed_times_are_tokens_witness :
    isHMMToken "09:00" = true ∧ isHMMToken "11:00" = true
    ∧ "09:00" ≠ "" ∧ "11:00" ≠ "" :=
  C5_parsed_times_are_tokens "09:00～11:00" "09:00" "11:00" (by decide)

/-- Environment for a booking attempt in which every UI step succeeds and the
post-submit view carries the "already reserved" marker. -/
def envPreempt : PageEnv :=
  ⟨true, true, true, true, some "ご確認ください。他の利用者が既に予約済です。",
    true, true, true, true, true⟩

/-- Environment for a booking attempt that fails early (the reservation-list
button wait times out); no marker is ever seen. -/
def envFailed : PageEnv :=
  ⟨true, false, true, true, some "", true, true, true, true, true⟩

/-- C7 counterexample: the function returns a plain boolean, and the
preemption outcome is the very same `False` as an ordinary failure — there is
no tagged `Preempted` outcome distinct from `Failed`. -/
theorem C7_counterexample :
    (try_book_first_candidate envPreempt slotBookedEx).1 = false
    ∧ (try_book_first_candidate envPreempt slotBookedEx).1
        = (try_book_first_candidate envFailed slotBookedEx).1 := by
  exact ⟨by decide, by decide⟩

/-- C7 (amended): when the post-submit view carries the "already reserved"
marker (and the recovery clicks succeed), the attempt returns `False` —
indistinguishable in its return value from a failure — after clicking back
and re-entering the search flow, and it never reaches the confirmation
step. -/
theorem C7_preemption_flow (env : PageEnv) (slot : SlotInfo) (bodyT : String)
    (hb : slot.button_id ≠ "")
    (h1 : env.clickSlotOk = true) (h2 : env.yyListOk = true)
    (h3 : env.selectPaymentOk = true) (h4 : env.okButtonOk = true)
    (hbody : env.bodyText = some bodyT)
    (hm : strContainsSub bodyT ALREADY_RESERVED_MARKER = true)
    (hback : env.backOk = true) (hnav : env.navigateOk = true) :
    try_book_first_candidate env slot
      = (false, [BookStep.clickSlot, BookStep.clickYyList, BookStep.selectPayment,
          BookStep.clickOK, BookStep.clickBack, BookStep.navigateSearch])
    ∧ BookStep.clickConfirmLink ∉ (try_book_first_candidate env slot).2
    ∧ BookStep.navigateSearch ∈ (try_book_first_candidate env slot).2 := by
  have heq : try_book_first_candidate env slot
      = (false, [BookStep.clickSlot, BookStep.clickYyList, BookStep.selectPayment,
          BookStep.clickOK, BookStep.clickBack, BookStep.navigateSearch]) := by
    unfold try_book_first_candidate
    rw [if_neg hb, h1, h2, h3, h4, hbody]
    simp [hm, hback, hnav]
  refine ⟨heq, ?_, ?_⟩ <;> rw [heq] <;> decide

theorem C7_preemption_flow_witness :
    try_book_first_candidate envPreempt slotBookedEx
      = (false, [BookStep.clickSlot, BookStep.clickYyList, BookStep.selectPayment,
          BookStep.clickOK, BookStep.clickBack, BookStep.navigateSearch])
    ∧ BookStep.clickConfirmLink ∉ (try_book_first_candidate envPreempt slotBookedEx).2
    ∧ BookStep.navigateSearch ∈ (try_book_first_candidate envPreempt slotBookedEx).2 :=
  C7_preemption_flow envPreempt slotBookedEx
    "ご確認ください。他の利用者が既に予約済です。"
    (by decide) rfl rfl rfl rfl rfl (by decide) rfl rfl

/-- C1 counterexample: for the 13:00–15:00 slot the claim's protected window
is [11:00, 17:00] under open-interval overlap, so the busy interval
[17:00, 18:00] should not conflict — but the code appends 59 seconds to the
window end and reports a conflict; and for the parseable 00:00–00:00 slot the
claim's window is [00:00, 02:00], which a busy interval [00:30, 01:00]
overlaps, yet the code reports no conflict because both times parse to 0. -/
theorem C1_counterexample :
    (has_calendar_conflict slotC1
        [(localAbs 9 ⟨2026, 3, 7⟩ 17 0 0, localAbs 9 ⟨2026, 3, 7⟩ 18 0 0)] 9
        = some true
      ∧ ¬(localAbs 9 ⟨2026, 3, 7⟩ 17 0 0 < localAbs 9 ⟨2026, 3, 7⟩ 17 0 0))
    ∧ (has_calendar_conflict slotC1zero
        [(localAbs 9 ⟨2026, 3, 7⟩ 0 30 0, localAbs 9 ⟨2026, 3, 7⟩ 1 0 0)] 9
        = some false
      ∧ localAbs 9 ⟨2026, 3, 7⟩ 0 30 0 < localAbs 9 ⟨2026, 3, 7⟩ 2 0 0
      ∧ localAbs 9 ⟨2026, 3, 7⟩ 1 0 0 > localAbs 9 ⟨2026, 3, 7⟩ 0 0 0) := by
  exact ⟨⟨by decide, by decide⟩, by decide, by decide, by decide⟩

/-- C1 (amended): for a slot whose start and end times are set and parse to
valid in-day minute values not both zero, `has_calendar_conflict` at the JST
offset returns `True` exactly when some busy interval `ev` satisfies
`ev.start < windowEnd` and `ev.end > windowStart`, where the window start is
the slot start minus two hours clamped to 00:00 and the window end is the
slot end plus two hours clamped to 23:59 with 59 further seconds appended
(so an interval beginning within the minute right at the buffered end still
conflicts). -/
theorem C1_conflict_window (slot : SlotInfo) (events : List (Int × Int))
    (sm em : Int)
    (hs : slot.start_time ≠ "") (he : slot.end_time ≠ "")
    (hps : _parse_time_to_minutes slot.start_time = sm)
    (hpe : _parse_time_to_minutes slot.end_time = em)
    (hsm0 : 0 ≤ sm) (hsm1 : sm ≤ 1439) (hem0 : 0 ≤ em) (hem1 : em ≤ 1439)
    (hnz : ¬(sm = 0 ∧ em = 0)) :
    has_calendar_conflict slot events 9 = some true ↔
      ∃ ev ∈ events, ev.1 < windowEndUTC 9 slot.date_obj em
        ∧ ev.2 > windowStartUTC 9 slot.date_obj sm := by
  unfold has_calendar_conflict
  rw [if_neg (by tauto)]
  dsimp only
  rw [hps, hpe]
  rw [if_neg hnz]
  rw [if_neg (by unfold HOURS_BUFFER; omega)]
  simp only [Option.some.injEq, List.any_eq_true, Bool.and_eq_true,
    decide_eq_true_eq]
  unfold windowStartUTC windowEndUTC HOURS_BUFFER
  norm_num

theorem C1_conflict_window_witness :
    has_calendar_conflict slotC1
        [(localAbs 9 ⟨2026, 3, 7⟩ 16 0 0, localAbs 9 ⟨2026, 3, 7⟩ 16 30 0)] 9
      = some true :=
  (C1_conflict_window slotC1
      [(localAbs 9 ⟨2026, 3, 7⟩ 16 0 0, localAbs 9 ⟨2026, 3, 7⟩ 16 30 0)]
      780 900 (by decide) (by decide) (by decide) (by decide) (by decide)
      (by decide) (by decide) (by decide) (by decide)).mpr
    ⟨(localAbs 9 ⟨2026, 3, 7⟩ 16 0 0, localAbs 9 ⟨2026, 3, 7⟩ 16 30 0),
      by decide, by decide, by decide⟩

end Arakawa
